import Mathlib

/-!
Verification of the frag-frog render-target / multi-pass orchestration core.

The TypeScript sources are shallowly embedded: each class's mutable fields
become a structure, each method a pure function (state-passing where the
method mutates), and each `throw` an `Except.error` carrying the thrown
condition.  Machine effects on the WebGL device (resource creation, texture
upload, binding) are logged in an explicit device-state record so that
"destroys / recreates / leaves unchanged" claims are provable.
-/

/-- The throw sites of the library (`throw new Error(...)` in the sources),
one constructor per distinct thrown condition. -/
inductive FFError where
  /-- `utils.ts` `getTextureNumber`: "Invalid texture index". -/
  | invalidTextureIndex
  /-- `utils.ts` `getColorAttachmentNumber`: "Invalid attachment index". -/
  | invalidAttachmentIndex
  /-- `doublebuffer.ts` `getReadBuffer`: "Cannot do an initial read from an
  unseeded double buffer." -/
  | unseededBufferRead
  /-- `shader.ts` `createShader`: "Error compiling shader". -/
  | shaderCompilation
  deriving DecidableEq, Repr

/-- `utils.ts` `getTextureNumber`: switch over the index, returning the
device constant `gl.TEXTUREi` (numerically `0x84C0 + i = 33984 + i`), with
the default branch throwing. -/
def getTextureNumber (index : ℤ) : Except FFError ℕ :=
  match index with
  | 0 => .ok 33984
  | 1 => .ok 33985
  | 2 => .ok 33986
  | 3 => .ok 33987
  | 4 => .ok 33988
  | 5 => .ok 33989
  | 6 => .ok 33990
  | 7 => .ok 33991
  | 8 => .ok 33992
  | 9 => .ok 33993
  | 10 => .ok 33994
  | 11 => .ok 33995
  | 12 => .ok 33996
  | 13 => .ok 33997
  | 14 => .ok 33998
  | 15 => .ok 33999
  | 16 => .ok 34000
  | 17 => .ok 34001
  | 18 => .ok 34002
  | 19 => .ok 34003
  | 20 => .ok 34004
  | 21 => .ok 34005
  | 22 => .ok 34006
  | 23 => .ok 34007
  | 24 => .ok 34008
  | 25 => .ok 34009
  | 26 => .ok 34010
  | 27 => .ok 34011
  | 28 => .ok 34012
  | 29 => .ok 34013
  | 30 => .ok 34014
  | 31 => .ok 34015
  | _ => .error .invalidTextureIndex

/-- `utils.ts` `getColorAttachmentNumber`: switch over the index, returning
the device constant `gl.COLOR_ATTACHMENTi` (numerically `0x8CE0 + i =
36064 + i`), with the default branch throwing. -/
def getColorAttachmentNumber (index : ℤ) : Except FFError ℕ :=
  match index with
  | 0 => .ok 36064
  | 1 => .ok 36065
  | 2 => .ok 36066
  | 3 => .ok 36067
  | 4 => .ok 36068
  | 5 => .ok 36069
  | 6 => .ok 36070
  | 7 => .ok 36071
  | 8 => .ok 36072
  | 9 => .ok 36073
  | 10 => .ok 36074
  | 11 => .ok 36075
  | 12 => .ok 36076
  | 13 => .ok 36077
  | 14 => .ok 36078
  | 15 => .ok 36079
  | _ => .error .invalidAttachmentIndex

theorem getTextureNumber_eq (i : ℤ) :
    getTextureNumber i =
      if 0 ≤ i ∧ i ≤ 31 then .ok (33984 + i.toNat) else .error .invalidTextureIndex := by
  by_cases h : 0 ≤ i ∧ i ≤ 31
  · rw [if_pos h]
    obtain ⟨h1, h2⟩ := h
    interval_cases i <;> rfl
  · rw [if_neg h]
    unfold getTextureNumber
    split <;> first | rfl | omega

theorem getColorAttachmentNumber_eq (i : ℤ) :
    getColorAttachmentNumber i =
      if 0 ≤ i ∧ i ≤ 15 then .ok (36064 + i.toNat) else .error .invalidAttachmentIndex := by
  by_cases h : 0 ≤ i ∧ i ≤ 15
  · rw [if_pos h]
    obtain ⟨h1, h2⟩ := h
    interval_cases i <;> rfl
  · rw [if_neg h]
    unfold getColorAttachmentNumber
    split <;> first | rfl | omega

/-- C8: resolving a device texture-slot number fails (with the
"invalid texture index" condition, the spec's `InvalidSlotIndex`) exactly
for indices outside [0, 31], and an output-attachment number fails (with
the "invalid attachment index" condition) exactly for indices outside
[0, 15]; inside the respective range, the valid device constant
`TEXTURE0 + i` resp. `COLOR_ATTACHMENT0 + i` is returned. -/
theorem slotIndex_bounds (i : ℤ) :
    getTextureNumber i =
      (if 0 ≤ i ∧ i ≤ 31 then .ok (33984 + i.toNat) else .error .invalidTextureIndex) ∧
    getColorAttachmentNumber i =
      (if 0 ≤ i ∧ i ≤ 15 then .ok (36064 + i.toNat) else .error .invalidAttachmentIndex) :=
  ⟨getTextureNumber_eq i, getColorAttachmentNumber_eq i⟩

/-- A uniform source produced by `context.u.sampler2D` (the seed of a
Doublebuffer is stored this way); modelled as an abstract identifier. -/
abbrev UniformSrc := ℕ

/-- The mutable fields of `Doublebuffer`: the optional seed source and the
generation counter `count` (starting at 0).  The two backing Framebuffers
are fixed at construction and referred to by index 0 / 1. -/
structure Doublebuffer where
  seedBuffer : Option UniformSrc
  count : ℕ
  deriving DecidableEq, Repr

/-- What `Doublebuffer.getReadBuffer` resolves to: the seed source, or
texture `textureIndex` of backing buffer `bufferIndex`. -/
inductive ReadSource where
  | seeded (s : UniformSrc)
  | bufferTexture (bufferIndex : ℕ) (textureIndex : ℕ)
  deriving DecidableEq, Repr

/-- `Doublebuffer.seed(value)`: stores `sampler2D(value)` and resets the
generation counter to 0. -/
def Doublebuffer.seed (db : Doublebuffer) (value : UniformSrc) : Doublebuffer :=
  { db with seedBuffer := some value, count := 0 }

/-- `Doublebuffer.getReadBuffer`: at generation 0 the seed if set (else
throws); at generation `g > 0`, texture 0 of `buffers[g % 2]`. -/
def Doublebuffer.getReadBuffer (db : Doublebuffer) : Except FFError ReadSource :=
  if db.count = 0 then
    match db.seedBuffer with
    | some s => .ok (.seeded s)
    | none => .error .unseededBufferRead
  else
    .ok (.bufferTexture (db.count % 2) 0)

/-- `Doublebuffer.getWriteBuffer`: the index of `buffers[(count + 1) % 2]`. -/
def Doublebuffer.getWriteBuffer (db : Doublebuffer) : ℕ :=
  (db.count + 1) % 2

/-- `Doublebuffer.advance`: increments the generation counter. -/
def Doublebuffer.advance (db : Doublebuffer) : Doublebuffer :=
  { db with count := db.count + 1 }

/-- Per-instance mutable `Shader` state relevant to the draw protocol: the
texture-slot counter (`textureCounter`). -/
structure ShaderState where
  textureCounter : ℕ
  deriving DecidableEq, Repr

/-- A uniform value passed to `Shader.draw`, by the shape that
`sampler2D` / activation dispatches on. -/
inductive Uniform where
  /-- A raw `TexImageSource`, activated through `wrapTexImageSource`. -/
  | image (id : ℕ)
  /-- A `FramebufferTexture` view `Framebuffer.getTexture(index)` over the
  given backing-texture list. -/
  | fbTexture (textures : List ℕ) (index : ℤ)
  /-- The draw's target Doublebuffer used as its own sampler source. -/
  | dbSource
  /-- A non-texture wrapper (`float`, `vec2`, `int`, ..., `uniform`):
  writes a value, claims no texture slot. -/
  | value
  deriving DecidableEq, Repr

/-- JavaScript array indexing `a[i]`: `undefined` (here `none`) outside
`[0, length)`. -/
def jsIndex (l : List ℕ) (i : ℤ) : Option ℕ :=
  if 0 ≤ i then l.get? i.toNat else none

/-- What one uniform activation did to the device. -/
inductive ActEvent where
  /-- `wrapTexImageSource`: uploaded image `id` and bound it at `slot`. -/
  | image (id : ℕ) (slot : ℕ)
  /-- `Framebuffer.getTexture(index).activate`: bound backing texture `tex`
  (`none` = the undefined entry of an out-of-range index) at `slot`. -/
  | fbTex (tex : Option ℕ) (slot : ℕ)
  /-- Doublebuffer-as-source: resolved `getReadBuffer()` to `r` and bound
  it at `slot`. -/
  | dbRead (r : ReadSource) (slot : ℕ)
  /-- Non-texture uniform write. -/
  | valueSet
  deriving DecidableEq, Repr

/-- The texture slot an activation claimed, if any. -/
def ActEvent.slotClaimed : ActEvent → Option ℕ
  | .image _ s => some s
  | .fbTex _ s => some s
  | .dbRead _ s => some s
  | .valueSet => none

/-- The texture slots claimed by a draw's activations, in activation
order. -/
def slotsOf (evs : List ActEvent) : List ℕ :=
  evs.filterMap ActEvent.slotClaimed

/-- Whether a uniform claims a texture slot when its activation succeeds. -/
def Uniform.claimsSlot : Uniform → Bool
  | .value => false
  | _ => true

/-- `Framebuffer.getTexture(index)`'s activation closure: writes the current
texture-slot counter into the uniform, activates device slot
`getTextureNumber(counter)` — the only bounds check performed — binds
`this.textures[index]` (no check on `index`; out of range binds the
undefined entry), sets the default texture params, and increments the
counter. -/
def getTextureActivate (textures : List ℕ) (index : ℤ) (c : ℕ) :
    Except FFError (ActEvent × ℕ) :=
  match getTextureNumber (c : ℤ) with
  | .ok _ => .ok (.fbTex (jsIndex textures index) c, c + 1)
  | .error e => .error e

/-- One uniform activation at texture-slot counter `c`; `db` is the state of
the Doublebuffer a `.dbSource` uniform reads.  A Doublebuffer source first
resolves `getReadBuffer()` (which may throw) and then activates the
resolved sampler source, which claims one texture slot. -/
def activateUniform (db : Doublebuffer) (u : Uniform) (c : ℕ) :
    Except FFError (ActEvent × ℕ) :=
  match u with
  | .image id =>
      match getTextureNumber (c : ℤ) with
      | .ok _ => .ok (.image id c, c + 1)
      | .error e => .error e
  | .fbTexture textures index => getTextureActivate textures index c
  | .dbSource =>
      match db.getReadBuffer with
      | .ok r =>
          match getTextureNumber (c : ℤ) with
          | .ok _ => .ok (.dbRead r c, c + 1)
          | .error e => .error e
      | .error e => .error e
  | .value => .ok (.valueSet, c)

/-- The uniforms loop of `Shader.draw`: activates in order until the first
throw; returns the events performed, the counter afterwards, and the thrown
condition if one aborted the loop. -/
def activateList (db : Doublebuffer) : List Uniform → ℕ →
    List ActEvent × ℕ × Option FFError
  | [], c => ([], c, none)
  | u :: rest, c =>
      match activateUniform db u c with
      | .ok (ev, c1) =>
          let (evs, c2, err) := activateList db rest c1
          (ev :: evs, c2, err)
      | .error e => ([], c, some e)

/-- The classification `target instanceof Doublebuffer` inside
`Shader.draw`. -/
inductive Target where
  | doublebufferTarget
  | otherTarget
  deriving DecidableEq, Repr

/-- Everything one `Shader.draw` call did to the modelled state. -/
structure DrawResult where
  /-- When the target is a Doublebuffer: the index of the backing buffer its
  `bind()` bound as the write target. -/
  boundWrite : Option ℕ
  events : List ActEvent
  err : Option FFError
  shader : ShaderState
  db : Doublebuffer
  deriving DecidableEq, Repr

/-- `Shader.draw(target, uniforms)` restricted to the modelled state: resets
the texture-slot counter to 0, binds the target (a Doublebuffer target binds
its write buffer `buffers[(count + 1) % 2]`), activates every uniform in
order, and then — only when no activation threw, and only when the target is
a Doublebuffer — advances that Doublebuffer's generation.  The prior shader
state `st` is accepted (it is the instance the counter lives on) but the
counter is overwritten before any activation. -/
def Shader.draw (target : Target) (uniforms : List Uniform) (st : ShaderState)
    (db : Doublebuffer) : DrawResult :=
  let boundWrite := if target = .doublebufferTarget then some db.getWriteBuffer else none
  match activateList db uniforms 0 with
  | (evs, c, none) =>
      { boundWrite := boundWrite, events := evs, err := none, shader := ⟨c⟩
        db := if target = .doublebufferTarget then db.advance else db }
  | (evs, c, some e) =>
      { boundWrite := boundWrite, events := evs, err := some e, shader := ⟨c⟩, db := db }

/-- `Doublebuffer.flush`: `blitShader.draw(context.out, {u_texture:
getReadBuffer()})` — a draw onto the visible surface whose single uniform is
the Doublebuffer's read source; the target is not a Doublebuffer, so the
generation does not advance. -/
def Doublebuffer.flush (db : Doublebuffer) (st : ShaderState) : DrawResult :=
  Shader.draw .otherTarget [.dbSource] st db

/-- A sequence of consecutive `draw` calls targeting the same Doublebuffer,
each with its own uniform list; returns the Doublebuffer afterwards. -/
def drawSeq (st : ShaderState) (db : Doublebuffer) : List (List Uniform) → Doublebuffer
  | [] => db
  | us :: rest => drawSeq st (Shader.draw .doublebufferTarget us st db).db rest

theorem Shader.draw_boundWrite (target : Target) (uniforms : List Uniform)
    (st : ShaderState) (db : Doublebuffer) :
    (Shader.draw target uniforms st db).boundWrite =
      if target = .doublebufferTarget then some db.getWriteBuffer else none := by
  unfold Shader.draw
  rcases hA : activateList db uniforms 0 with ⟨evs, c, err⟩
  simp only [hA]
  cases err <;> rfl

theorem Shader.draw_db_of_err (target : Target) (uniforms : List Uniform)
    (st : ShaderState) (db : Doublebuffer) (e : FFError)
    (h : (Shader.draw target uniforms st db).err = some e) :
    (Shader.draw target uniforms st db).db = db := by
  unfold Shader.draw at h ⊢
  rcases hA : activateList db uniforms 0 with ⟨evs, c, err⟩
  simp only [hA] at h ⊢
  cases err with
  | none => simp at h
  | some e => rfl

theorem Shader.draw_db_otherTarget (uniforms : List Uniform)
    (st : ShaderState) (db : Doublebuffer) :
    (Shader.draw .otherTarget uniforms st db).db = db := by
  unfold Shader.draw
  rcases hA : activateList db uniforms 0 with ⟨evs, c, err⟩
  simp only [hA]
  cases err <;> rfl

theorem getReadBuffer_error_iff (db : Doublebuffer) :
    db.getReadBuffer = .error .unseededBufferRead ↔
      db.count = 0 ∧ db.seedBuffer = none := by
  rcases db with ⟨seed, count⟩
  unfold Doublebuffer.getReadBuffer
  cases seed <;> cases count <;> simp

theorem getReadBuffer_seeded (db : Doublebuffer) (s : UniformSrc)
    (h0 : db.count = 0) (hs : db.seedBuffer = some s) :
    db.getReadBuffer = .ok (.seeded s) := by
  simp [Doublebuffer.getReadBuffer, h0, hs]

theorem getReadBuffer_pos (db : Doublebuffer) (h : 0 < db.count) :
    db.getReadBuffer = .ok (.bufferTexture (db.count % 2) 0) := by
  unfold Doublebuffer.getReadBuffer
  rw [if_neg (by omega)]

theorem getReadBuffer_ne_write (db : Doublebuffer) (i t : ℕ)
    (h : db.getReadBuffer = .ok (.bufferTexture i t)) :
    i ≠ db.getWriteBuffer := by
  rcases db with ⟨seed, count⟩
  unfold Doublebuffer.getReadBuffer at h
  unfold Doublebuffer.getWriteBuffer
  cases count with
  | zero => cases seed <;> simp at h
  | succ n =>
    simp at h
    obtain ⟨hi, -⟩ := h
    simp only []
    omega

/-- C1: a draw call targeting a Doublebuffer at generation `g` binds
`buffers[(g + 1) % 2]` as its write target; the buffer read is texture 0 of
`buffers[g % 2]` when `g > 0`, and the seed source when `g = 0` and a seed
was set; and whenever the read resolves to a backing buffer, its index
differs from the write index, so no draw reads and writes the same backing
image. -/
theorem doublebuffer_read_write_disjoint (db : Doublebuffer) (st : ShaderState)
    (uniforms : List Uniform) :
    (Shader.draw .doublebufferTarget uniforms st db).boundWrite =
      some ((db.count + 1) % 2) ∧
    (0 < db.count → db.getReadBuffer = .ok (.bufferTexture (db.count % 2) 0)) ∧
    (∀ s, db.count = 0 → db.seedBuffer = some s →
      db.getReadBuffer = .ok (.seeded s)) ∧
    (∀ i t, db.getReadBuffer = .ok (.bufferTexture i t) →
      i ≠ db.getWriteBuffer ∧ db.getWriteBuffer = (db.count + 1) % 2) := by
  refine ⟨?_, getReadBuffer_pos db, fun s h0 hs => getReadBuffer_seeded db s h0 hs,
    fun i t h => ⟨getReadBuffer_ne_write db i t h, rfl⟩⟩
  rw [Shader.draw_boundWrite]
  rfl

/-- Witness for C1 at the concrete Doublebuffer with generation 1 and no
seed: the write buffer is index 0, the read buffer is texture 0 of backing
buffer 1, and the two indices differ. -/
theorem doublebuffer_read_write_disjoint_witness :
    (Shader.draw .doublebufferTarget [] ⟨0⟩
        (⟨none, 1⟩ : Doublebuffer)).boundWrite = some ((1 + 1) % 2) ∧
    Doublebuffer.getReadBuffer ⟨none, 1⟩ = .ok (.bufferTexture (1 % 2) 0) ∧
    (1 % 2 : ℕ) ≠ Doublebuffer.getWriteBuffer ⟨none, 1⟩ := by
  obtain ⟨h1, h2, h3, h4⟩ :=
    doublebuffer_read_write_disjoint ⟨none, 1⟩ ⟨0⟩ []
  exact ⟨h1, h2 (by decide), (h4 (1 % 2) 0 (h2 (by decide))).1⟩

theorem getTextureNumber_error (i : ℤ) (e : FFError)
    (h : getTextureNumber i = .error e) : e = .invalidTextureIndex := by
  rw [getTextureNumber_eq] at h
  split at h <;> simp_all

theorem flush_err_iff (db : Doublebuffer) (st : ShaderState) :
    (db.flush st).err = some FFError.unseededBufferRead ↔
      db.count = 0 ∧ db.seedBuffer = none := by
  rcases db with ⟨seed, count⟩
  cases seed <;> cases count <;>
    simp [Doublebuffer.flush, Shader.draw, activateList, activateUniform,
      Doublebuffer.getReadBuffer, getTextureNumber, Except.bind]

theorem activateUniform_dbSource_err_iff (db : Doublebuffer) (c : ℕ) :
    activateUniform db .dbSource c = .error .unseededBufferRead ↔
      db.count = 0 ∧ db.seedBuffer = none := by
  rw [← getReadBuffer_error_iff db]
  rcases hR : db.getReadBuffer with e | r
  · have he : e = .unseededBufferRead := by
      rcases db with ⟨seed, count⟩
      unfold Doublebuffer.getReadBuffer at hR
      cases seed <;> cases count <;> simp_all
    subst he
    simp [activateUniform, hR]
  · rcases hT : getTextureNumber (c : ℤ) with e | n
    · have he := getTextureNumber_error _ _ hT
      subst he
      simp [activateUniform, hR, hT]
    · simp [activateUniform, hR, hT]

theorem Shader.draw_eq (target : Target) (us : List Uniform) (st : ShaderState)
    (db : Doublebuffer) :
    Shader.draw target us st db =
      { boundWrite := if target = .doublebufferTarget then some db.getWriteBuffer else none
        events := (activateList db us 0).1
        err := (activateList db us 0).2.2
        shader := ⟨(activateList db us 0).2.1⟩
        db := if (activateList db us 0).2.2 = none ∧ target = .doublebufferTarget
              then db.advance else db } := by
  unfold Shader.draw
  rcases hA : activateList db us 0 with ⟨evs, c, err⟩
  cases err <;> simp

/-- C3: a Doublebuffer read — via its activation as a uniform source or via
`flush` — fails with the unseeded-buffer-read condition exactly when the
generation counter is 0 and no seed was set; when the counter is 0 and a
seed was set, the read returns the seed source; and a failing read leaves
the Doublebuffer's state unchanged (a `flush` never changes it, and an
aborted `draw` returns the Doublebuffer exactly as it was). -/
theorem doublebuffer_unseeded_read_spec (db : Doublebuffer) (st : ShaderState)
    (c : ℕ) :
    (db.getReadBuffer = .error .unseededBufferRead ↔
      db.count = 0 ∧ db.seedBuffer = none) ∧
    (activateUniform db .dbSource c = .error .unseededBufferRead ↔
      db.count = 0 ∧ db.seedBuffer = none) ∧
    ((db.flush st).err = some .unseededBufferRead ↔
      db.count = 0 ∧ db.seedBuffer = none) ∧
    (∀ s, db.count = 0 → db.seedBuffer = some s →
      db.getReadBuffer = .ok (.seeded s)) ∧
    (db.flush st).db = db ∧
    (∀ target us e, (Shader.draw target us st db).err = some e →
      (Shader.draw target us st db).db = db) := by
  refine ⟨getReadBuffer_error_iff db, activateUniform_dbSource_err_iff db c,
    flush_err_iff db st, fun s h0 hs => getReadBuffer_seeded db s h0 hs,
    Shader.draw_db_otherTarget _ _ _,
    fun target us e h => Shader.draw_db_of_err target us st db e h⟩

/-- Witness for C3: at generation 0 with no seed, the read, the uniform
activation, and `flush` all fail with the unseeded-buffer-read condition and
leave the Doublebuffer unchanged; after seeding with source 7, the
generation-0 read returns that seed. -/
theorem doublebuffer_unseeded_read_spec_witness :
    Doublebuffer.getReadBuffer ⟨none, 0⟩ = .error .unseededBufferRead ∧
    activateUniform ⟨none, 0⟩ .dbSource 0 = .error .unseededBufferRead ∧
    (Doublebuffer.flush ⟨none, 0⟩ ⟨0⟩).err = some .unseededBufferRead ∧
    Doublebuffer.getReadBuffer ⟨some 7, 0⟩ = .ok (.seeded 7) ∧
    (Doublebuffer.flush ⟨none, 0⟩ ⟨0⟩).db = ⟨none, 0⟩ ∧
    (Shader.draw .doublebufferTarget [.dbSource] ⟨0⟩ ⟨none, 0⟩).db = ⟨none, 0⟩ := by
  obtain ⟨h1, h2, h3, -, h5, h6⟩ := doublebuffer_unseeded_read_spec ⟨none, 0⟩ ⟨0⟩ 0
  obtain ⟨-, -, -, g4, -, -⟩ := doublebuffer_unseeded_read_spec ⟨some 7, 0⟩ ⟨0⟩ 0
  exact ⟨h1.mpr ⟨rfl, rfl⟩, h2.mpr ⟨rfl, rfl⟩, h3.mpr ⟨rfl, rfl⟩, g4 7 rfl rfl,
    h5, h6 .doublebufferTarget [.dbSource] .unseededBufferRead (by decide)⟩

theorem getReadBuffer_isOk_of_seeded (db : Doublebuffer) (s : UniformSrc)
    (hs : db.seedBuffer = some s) : ∃ r, db.getReadBuffer = .ok r := by
  cases hc : db.count with
  | zero => exact ⟨.seeded s, getReadBuffer_seeded db s hc hs⟩
  | succ n => exact ⟨_, getReadBuffer_pos db (by omega)⟩

theorem activateUniform_ok (db : Doublebuffer) (u : Uniform) (c : ℕ)
    (hc : c ≤ 31) (hr : u = .dbSource → ∃ r, db.getReadBuffer = .ok r) :
    ∃ ev, activateUniform db u c =
      .ok (ev, if u.claimsSlot then c + 1 else c) := by
  have hT : getTextureNumber (c : ℤ) = .ok (33984 + c) := by
    rw [getTextureNumber_eq, if_pos (by constructor <;> omega)]
    simp
  cases u with
  | image id =>
      exact ⟨.image id c, by simp [activateUniform, hT, Uniform.claimsSlot]⟩
  | fbTexture txs idx =>
      exact ⟨.fbTex (jsIndex txs idx) c,
        by simp [activateUniform, getTextureActivate, hT, Uniform.claimsSlot]⟩
  | dbSource =>
      obtain ⟨r, hR⟩ := hr rfl
      exact ⟨.dbRead r c, by simp [activateUniform, hR, hT, Uniform.claimsSlot]⟩
  | value => exact ⟨.valueSet, by simp [activateUniform, Uniform.claimsSlot]⟩

theorem activateList_seeded (s : UniformSrc) :
    ∀ (us : List Uniform) (db : Doublebuffer) (c : ℕ),
      db.seedBuffer = some s →
      c + (us.filter Uniform.claimsSlot).length ≤ 32 →
      (activateList db us c).2.2 = none ∧
      (activateList db us c).2.1 = c + (us.filter Uniform.claimsSlot).length := by
  intro us
  induction us with
  | nil => intro db c _ _; simp [activateList]
  | cons u rest ih =>
      intro db c hs hlen
      by_cases hv : u = .value
      · subst hv
        have hlen' : c + (rest.filter Uniform.claimsSlot).length ≤ 32 := by
          simpa [List.filter_cons, Uniform.claimsSlot] using hlen
        obtain ⟨h1, h2⟩ := ih db c hs hlen'
        rcases hA : activateList db rest c with ⟨evs, c2, err⟩
        rw [hA] at h1 h2
        simp at h1 h2
        refine ⟨?_, ?_⟩ <;>
          simp [activateList, activateUniform, hA, List.filter_cons,
            Uniform.claimsSlot, h1, h2]
      · have hcl : u.claimsSlot = true := by
          cases u with
          | value => exact absurd rfl hv
          | _ => rfl
        have hlen' : c + (1 + (rest.filter Uniform.claimsSlot).length) ≤ 32 := by
          have : ((u :: rest).filter Uniform.claimsSlot).length =
              1 + (rest.filter Uniform.claimsSlot).length := by
            simp [List.filter_cons, hcl]
            omega
          omega
        obtain ⟨ev, hev⟩ :=
          activateUniform_ok db u c (by omega)
            (fun _ => getReadBuffer_isOk_of_seeded db s hs)
        rw [hcl] at hev
        simp at hev
        obtain ⟨h1, h2⟩ := ih db (c + 1) hs (by omega)
        rcases hA : activateList db rest (c + 1) with ⟨evs, c2, err⟩
        rw [hA] at h1 h2
        simp at h1 h2
        refine ⟨?_, ?_⟩
        · simp [activateList, hev, hA, h1]
        · simp [activateList, hev, hA, List.filter_cons, hcl, h2]
          omega

theorem activateUniform_dbRead_ev (db : Doublebuffer) (u : Uniform) (c c1 : ℕ)
    (r : ReadSource) (slot : ℕ)
    (hU : activateUniform db u c = .ok (.dbRead r slot, c1)) :
    db.getReadBuffer = .ok r := by
  cases u with
  | image id =>
      rcases hT : getTextureNumber (c : ℤ) with e | n <;>
        simp [activateUniform, hT] at hU
  | fbTexture txs idx =>
      rcases hT : getTextureNumber (c : ℤ) with e | n <;>
        simp [activateUniform, getTextureActivate, hT] at hU
  | dbSource =>
      rcases hR : db.getReadBuffer with e | r2
      · simp [activateUniform, hR] at hU
      · rcases hT : getTextureNumber (c : ℤ) with e | n <;>
          simp [activateUniform, hR, hT] at hU
        rw [hU.1.1]
  | value => simp [activateUniform] at hU

theorem activateList_dbRead (db : Doublebuffer) :
    ∀ (us : List Uniform) (c : ℕ) (r : ReadSource) (slot : ℕ),
      ActEvent.dbRead r slot ∈ (activateList db us c).1 →
      db.getReadBuffer = .ok r := by
  intro us
  induction us with
  | nil => intro c r slot h; simp [activateList] at h
  | cons u rest ih =>
      intro c r slot h
      rcases hU : activateUniform db u c with e | ⟨ev, c1⟩
      · simp [activateList, hU] at h
      · rcases hA : activateList db rest c1 with ⟨evs, c2, err⟩
        simp only [activateList, hU, hA] at h
        rcases List.mem_cons.mp h with h1 | h2
        · rw [← h1] at hU
          exact activateUniform_dbRead_ev db u c c1 r slot hU
        · apply ih c1 r slot
          rw [hA]
          exact h2

theorem draw_db_seeded (s : UniformSrc) (st : ShaderState) (db : Doublebuffer)
    (us : List Uniform) (hs : db.seedBuffer = some s)
    (hlen : (us.filter Uniform.claimsSlot).length ≤ 32) :
    (Shader.draw .doublebufferTarget us st db).db = db.advance := by
  obtain ⟨h1, -⟩ := activateList_seeded s us db 0 hs (by omega)
  rw [Shader.draw_eq]
  simp [h1]

theorem drawSeq_count (s : UniformSrc) (st : ShaderState) :
    ∀ (uss : List (List Uniform)) (db : Doublebuffer),
      db.seedBuffer = some s →
      (∀ us ∈ uss, (us.filter Uniform.claimsSlot).length ≤ 32) →
      (drawSeq st db uss).count = db.count + uss.length ∧
      (drawSeq st db uss).seedBuffer = some s := by
  intro uss
  induction uss with
  | nil => intro db hs _; simp [drawSeq, hs]
  | cons us rest ih =>
      intro db hs hall
      have hdb : (Shader.draw .doublebufferTarget us st db).db = db.advance :=
        draw_db_seeded s st db us hs (hall us (List.mem_cons_self us rest))
      have hadv : (db.advance).seedBuffer = some s := by
        simp [Doublebuffer.advance, hs]
      obtain ⟨h1, h2⟩ := ih db.advance hadv
        (fun u hu => hall u (List.mem_cons_of_mem us hu))
      simp only [drawSeq, hdb]
      refine ⟨?_, h2⟩
      rw [h1]
      simp [Doublebuffer.advance]
      omega

/-- C2: starting from generation 0 on a seeded Doublebuffer, `n` consecutive
`draw` calls targeting it (no intervening seed; each draw activating at most
32 texture-claiming uniforms) leave its generation counter at `n`; before
draw number `k + 1` the counter is `k` and after it the counter is `k + 1`
(each draw advances exactly once); and every Doublebuffer read performed by
the uniform activations of that draw resolves against the pre-advance state,
i.e. observes generation `k`. -/
theorem doublebuffer_draw_advance (s : UniformSrc) (st : ShaderState)
    (uss : List (List Uniform))
    (hslots : ∀ us ∈ uss, (us.filter Uniform.claimsSlot).length ≤ 32) :
    (drawSeq st ⟨some s, 0⟩ uss).count = uss.length ∧
    ∀ k (hk : k < uss.length),
      (drawSeq st ⟨some s, 0⟩ (uss.take k)).count = k ∧
      ((Shader.draw .doublebufferTarget (uss.get ⟨k, hk⟩) st
          (drawSeq st ⟨some s, 0⟩ (uss.take k))).db).count = k + 1 ∧
      ∀ r slot,
        ActEvent.dbRead r slot ∈
          (Shader.draw .doublebufferTarget (uss.get ⟨k, hk⟩) st
            (drawSeq st ⟨some s, 0⟩ (uss.take k))).events →
        (drawSeq st ⟨some s, 0⟩ (uss.take k)).getReadBuffer = .ok r := by
  have h0 : (⟨some s, 0⟩ : Doublebuffer).seedBuffer = some s := rfl
  obtain ⟨hc, -⟩ := drawSeq_count s st uss ⟨some s, 0⟩ h0 hslots
  refine ⟨by simpa using hc, ?_⟩
  intro k hk
  have htake : ∀ us ∈ uss.take k, (us.filter Uniform.claimsSlot).length ≤ 32 :=
    fun us hu => hslots us (List.take_subset k uss hu)
  obtain ⟨hck, hsk⟩ := drawSeq_count s st (uss.take k) ⟨some s, 0⟩ h0 htake
  have hck' : (drawSeq st ⟨some s, 0⟩ (uss.take k)).count = k := by
    rw [hck]
    simp [List.length_take]
    omega
  refine ⟨hck', ?_, ?_⟩
  · have hmem : uss.get ⟨k, hk⟩ ∈ uss := List.get_mem uss k hk
    have hdb := draw_db_seeded s st _ (uss.get ⟨k, hk⟩) hsk (hslots _ hmem)
    rw [hdb]
    simp [Doublebuffer.advance, hck']
  · intro r slot hmemEv
    have hev : (Shader.draw .doublebufferTarget (uss.get ⟨k, hk⟩) st
        (drawSeq st ⟨some s, 0⟩ (uss.take k))).events =
        (activateList (drawSeq st ⟨some s, 0⟩ (uss.take k)) (uss.get ⟨k, hk⟩) 0).1 := by
      rw [Shader.draw_eq]
    rw [hev] at hmemEv
    exact activateList_dbRead _ _ _ r slot hmemEv

/-- Witness for C2: two consecutive draws on a Doublebuffer seeded with
source 5, each reading the buffer as its own uniform source, leave the
generation counter at 2, and before the second draw it is 1. -/
theorem doublebuffer_draw_advance_witness :
    (drawSeq ⟨0⟩ ⟨some 5, 0⟩ [[.dbSource], [.dbSource]]).count = 2 ∧
    (drawSeq ⟨0⟩ ⟨some 5, 0⟩ ([[.dbSource], [.dbSource]].take 1)).count = 1 := by
  obtain ⟨h1, h2⟩ :=
    doublebuffer_draw_advance 5 ⟨0⟩ [[.dbSource], [.dbSource]] (by decide)
  exact ⟨h1, (h2 1 (by decide)).1⟩

theorem activateUniform_ok_inv (db : Doublebuffer) (u : Uniform) (c c1 : ℕ)
    (ev : ActEvent) (hU : activateUniform db u c = .ok (ev, c1)) :
    (u.claimsSlot = true → ev.slotClaimed = some c ∧ c1 = c + 1) ∧
    (u.claimsSlot = false → ev.slotClaimed = none ∧ c1 = c) := by
  cases u with
  | image id =>
      rcases hT : getTextureNumber (c : ℤ) with e | n <;>
        simp [activateUniform, hT] at hU
      obtain ⟨h1, h2⟩ := hU
      refine ⟨fun _ => ?_, fun h => by simp [Uniform.claimsSlot] at h⟩
      rw [← h1, ← h2]
      exact ⟨rfl, rfl⟩
  | fbTexture txs idx =>
      rcases hT : getTextureNumber (c : ℤ) with e | n <;>
        simp [activateUniform, getTextureActivate, hT] at hU
      obtain ⟨h1, h2⟩ := hU
      refine ⟨fun _ => ?_, fun h => by simp [Uniform.claimsSlot] at h⟩
      rw [← h1, ← h2]
      exact ⟨rfl, rfl⟩
  | dbSource =>
      rcases hR : db.getReadBuffer with e | r2
      · simp [activateUniform, hR] at hU
      · rcases hT : getTextureNumber (c : ℤ) with e | n <;>
          simp [activateUniform, hR, hT] at hU
        obtain ⟨h1, h2⟩ := hU
        refine ⟨fun _ => ?_, fun h => by simp [Uniform.claimsSlot] at h⟩
        rw [← h1, ← h2]
        exact ⟨rfl, rfl⟩
  | value =>
      simp [activateUniform] at hU
      obtain ⟨h1, h2⟩ := hU
      refine ⟨fun h => by simp [Uniform.claimsSlot] at h, fun _ => ?_⟩
      rw [← h1, ← h2]
      exact ⟨rfl, rfl⟩

theorem activateList_slots (db : Doublebuffer) :
    ∀ (us : List Uniform) (c : ℕ),
      (activateList db us c).2.2 = none →
      slotsOf (activateList db us c).1 =
        List.range' c (us.filter Uniform.claimsSlot).length ∧
      (activateList db us c).2.1 = c + (us.filter Uniform.claimsSlot).length := by
  intro us
  induction us with
  | nil => intro c _; simp [activateList, slotsOf]
  | cons u rest ih =>
      intro c herr
      rcases hU : activateUniform db u c with e | ⟨ev, c1⟩
      · rw [show activateList db (u :: rest) c = ([], c, some e) by
          simp [activateList, hU]] at herr
        simp at herr
      · rcases hA : activateList db rest c1 with ⟨evs, c2, err⟩
        have hstep : activateList db (u :: rest) c = (ev :: evs, c2, err) := by
          simp [activateList, hU, hA]
        rw [hstep] at herr ⊢
        simp at herr
        obtain ⟨hinv1, hinv2⟩ := activateUniform_ok_inv db u c c1 ev hU
        by_cases hcl : u.claimsSlot = true
        · obtain ⟨hslot, hc1⟩ := hinv1 hcl
          subst hc1
          obtain ⟨ih1, ih2⟩ := ih (c + 1) (by rw [hA]; simpa using herr)
          rw [hA] at ih1 ih2
          simp at ih1 ih2
          refine ⟨?_, ?_⟩
          · simp [slotsOf, List.filter_cons, hcl, hslot, List.range']
            simpa [slotsOf] using ih1
          · simp [List.filter_cons, hcl, ih2]
            omega
        · have hcl' : u.claimsSlot = false := by
            cases hclv : u.claimsSlot
            · rfl
            · exact absurd hclv hcl
          obtain ⟨hslot, hc1⟩ := hinv2 hcl'
          obtain ⟨ih1, ih2⟩ := ih c1 (by rw [hA]; simpa using herr)
          rw [hA] at ih1 ih2
          simp at ih1 ih2
          rw [hc1] at ih1 ih2
          refine ⟨?_, ?_⟩
          · simp [slotsOf, List.filter_cons, hcl', hslot]
            simpa [slotsOf] using ih1
          · simp [List.filter_cons, hcl', ih2]

/-- C5 (amended): every `Shader.draw` resets the texture-slot counter to 0
before activating uniforms — the whole draw result is independent of the
shader's prior counter value — and, provided the draw completes without
throwing (which bounds the number k of texture-claiming uniforms by 32),
those uniforms are assigned slots 0, 1, ..., k-1 in activation order, and
the counter afterwards is k. -/
theorem draw_slot_assignment (target : Target) (uniforms : List Uniform)
    (st st2 : ShaderState) (db : Doublebuffer)
    (hok : (Shader.draw target uniforms st db).err = none) :
    slotsOf (Shader.draw target uniforms st db).events =
      List.range (uniforms.filter Uniform.claimsSlot).length ∧
    (Shader.draw target uniforms st db).shader =
      ⟨(uniforms.filter Uniform.claimsSlot).length⟩ ∧
    Shader.draw target uniforms st db = Shader.draw target uniforms st2 db := by
  have herr : (activateList db uniforms 0).2.2 = none := by
    rw [Shader.draw_eq] at hok
    exact hok
  obtain ⟨h1, h2⟩ := activateList_slots db uniforms 0 herr
  refine ⟨?_, ?_, rfl⟩
  · rw [Shader.draw_eq]
    rw [List.range_eq_range']
    simpa using h1
  · rw [Shader.draw_eq]
    simp [h2]

/-- C5 counterexample: the claim's unrestricted form — k image uniforms in
one draw always receive slots 0..k-1 — fails at k = 33: the draw aborts
with the invalid-texture-index condition at the 33rd image activation, and
the slots assigned are 0..31, not 0..32. -/
theorem draw_slot_assignment_counterexample :
    (Shader.draw .otherTarget (List.replicate 33 (Uniform.image 0)) ⟨0⟩
      ⟨none, 0⟩).err = some .invalidTextureIndex ∧
    slotsOf (Shader.draw .otherTarget (List.replicate 33 (Uniform.image 0)) ⟨0⟩
      ⟨none, 0⟩).events ≠ List.range 33 := by decide

/-- Witness for C5 (amended): a draw with uniforms image, value, image and
prior texture-slot counter 5 assigns slots 0 and 1 to the two images, ends
with counter 2, and is identical to the same draw with prior counter 0. -/
theorem draw_slot_assignment_witness :
    slotsOf (Shader.draw .otherTarget [Uniform.image 3, .value, .image 4] ⟨5⟩
      ⟨none, 0⟩).events = List.range 2 ∧
    (Shader.draw .otherTarget [Uniform.image 3, .value, .image 4] ⟨5⟩
      ⟨none, 0⟩).shader = ⟨2⟩ ∧
    Shader.draw .otherTarget [Uniform.image 3, .value, .image 4] ⟨5⟩ ⟨none, 0⟩ =
      Shader.draw .otherTarget [Uniform.image 3, .value, .image 4] ⟨0⟩ ⟨none, 0⟩ := by
  obtain ⟨h1, h2, h3⟩ := draw_slot_assignment .otherTarget
    [Uniform.image 3, .value, .image 4] ⟨5⟩ ⟨0⟩ ⟨none, 0⟩ (by decide)
  exact ⟨by simpa using h1, by simpa using h2, h3⟩

/-- C10: `Framebuffer.getTexture(index)` never validates `index` against the
framebuffer's texture count: whenever the texture-slot counter is in
[0, 31], the activation completes without any error for every integer
`index`, and an `index` outside `[0, textureCount)` binds the undefined
entry (`none`); the only bounds check is on the slot counter, whose
overflow is the only possible error. -/
theorem getTexture_no_index_validation (textures : List ℕ) (index : ℤ) (c : ℕ) :
    (c ≤ 31 →
      getTextureActivate textures index c =
        .ok (.fbTex (jsIndex textures index) c, c + 1)) ∧
    ((index < 0 ∨ (textures.length : ℤ) ≤ index) →
      jsIndex textures index = none) ∧
    (∀ e, getTextureActivate textures index c = .error e ↔
      (e = .invalidTextureIndex ∧ 32 ≤ c)) := by
  refine ⟨?_, ?_, ?_⟩
  · intro hc
    have hT : getTextureNumber (c : ℤ) = .ok (33984 + c) := by
      rw [getTextureNumber_eq, if_pos (by constructor <;> omega)]
      simp
    simp [getTextureActivate, hT]
  · intro hidx
    unfold jsIndex
    rcases hidx with h | h
    · rw [if_neg (by omega)]
    · by_cases h0 : 0 ≤ index
      · rw [if_pos h0]
        exact List.get?_eq_none.mpr (by omega)
      · rw [if_neg h0]
  · intro e
    by_cases hc : c ≤ 31
    · have hT : getTextureNumber (c : ℤ) = .ok (33984 + c) := by
        rw [getTextureNumber_eq, if_pos (by constructor <;> omega)]
        simp
      simp [getTextureActivate, hT]
      omega
    · have hT : getTextureNumber (c : ℤ) = .error .invalidTextureIndex := by
        rw [getTextureNumber_eq, if_neg (by omega)]
      simp [getTextureActivate, hT]
      constructor
      · intro he
        exact ⟨he.symm, by omega⟩
      · intro h
        exact h.1.symm

/-- Witness for C10: a Framebuffer with a single backing texture and
`getTexture(5)` — an index far beyond its texture count — activates without
error at slot-counter 0, binding the undefined entry. -/
theorem getTexture_no_index_validation_witness :
    getTextureActivate [10] 5 0 = .ok (.fbTex (jsIndex [10] 5) 0, 0 + 1) ∧
    jsIndex [10] 5 = none ∧
    (getTextureActivate [10] 5 0 = .error .invalidTextureIndex ↔
      (FFError.invalidTextureIndex = .invalidTextureIndex ∧ 32 ≤ 0)) := by
  obtain ⟨h1, h2, h3⟩ := getTexture_no_index_validation [10] 5 0
  exact ⟨h1 (by decide), h2 (by right; decide), h3 .invalidTextureIndex⟩

/-- The device's verdicts on the three build steps of one `Shader`: whether
the synthesized vertex stage compiles, whether the caller's fragment source
compiles, and whether the program links. -/
structure DeviceBuildOutcome where
  vertexCompiles : Bool
  fragmentCompiles : Bool
  linkSucceeds : Bool
  deriving DecidableEq, Repr

/-- `Shader.createShader`: compiles one stage and checks
`getShaderParameter(COMPILE_STATUS)`, throwing "Error compiling shader" on
failure. -/
def createShader (compiles : Bool) : Except FFError Unit :=
  if compiles then .ok () else .error .shaderCompilation

/-- `Shader.createProgram`: attaches both stages, calls `linkProgram` and
`useProgram`, resolves and enables the quad attributes and uploads the quad
geometry, then returns the program.  It never queries
`getProgramParameter(LINK_STATUS)`: the device's link verdict is received
here but never consulted. -/
def createProgram (linkSucceeds : Bool) : Except FFError Unit :=
  .ok ()

/-- The `Shader` constructor: synthesizes the vertex source, builds the
vertex stage, then the fragment stage, then the program, aborting at the
first throw. -/
def Shader.construct (d : DeviceBuildOutcome) : Except FFError Unit :=
  match createShader d.vertexCompiles with
  | .error e => .error e
  | .ok _ =>
      match createShader d.fragmentCompiles with
      | .error e => .error e
      | .ok _ => createProgram d.linkSucceeds

/-- C4 counterexample: on a device where both stages compile but linking
fails, `Shader` construction succeeds — `createProgram` never checks the
link status, so a reported link failure does not raise the
shader-compilation error and a Shader is returned. -/
theorem shader_construct_link_failure_counterexample :
    Shader.construct ⟨true, true, false⟩ = .ok () := rfl

/-- C4 (amended): `Shader` construction fails with the shader-compilation
error — returning no partial Shader — exactly when the vertex stage or the
fragment stage fails to compile; the device's link verdict is never
consulted, so construction succeeds whenever both stages compile, even when
the device reports a link failure. -/
theorem shader_construct_spec (d : DeviceBuildOutcome) :
    Shader.construct d =
      if d.vertexCompiles && d.fragmentCompiles then .ok ()
      else .error .shaderCompilation := by
  rcases d with ⟨v, f, l⟩
  cases v <;> cases f <;> rfl

/-- The texture filter values of `ITextureParameters` (shader.ts):
`'linear' | 'nearest'`. -/
inductive TexFilter where
  | linear
  | nearest
  deriving DecidableEq, Repr

/-- The texture wrap values of `ITextureParameters` (shader.ts);
`repeatWrap` stands for the source's `'repeat'`. -/
inductive Wrap where
  | repeatWrap
  | clampToEdge
  | mirroredRepeat
  deriving DecidableEq, Repr

/-- `ITextureParameters`: optional filter (applied to the MIN and MAG
filter alike) and optional wrap (applied to horizontal and vertical wrap
alike). -/
structure ITextureParameters where
  filter : Option TexFilter := none
  wrap : Option Wrap := none
  deriving DecidableEq, Repr

/-- The texture parameters `setActiveTextureParams` writes on the currently
bound texture, plus whether the linear-on-floating-point diagnostic was
emitted. -/
structure TexParams where
  minFilter : TexFilter
  magFilter : TexFilter
  wrapS : Wrap
  wrapT : Wrap
  warned : Bool
  deriving DecidableEq, Repr

/-- `Context.setActiveTextureParams(params?, usesFloatingPointTextures)`,
with the context's `floatingPointTexturesLinearSamplingSupported` capability
flag passed explicitly.  The effective filter is the caller's filter if
given, else nearest when the texture is floating-point and linear sampling
on such textures is unsupported, else linear; a warning is logged when the
caller explicitly asks for linear in that unsupported situation; the
effective wrap is the caller's wrap if given, else mirrored-repeat; filter
goes to MIN and MAG, wrap to both axes. -/
def setActiveTextureParams (linearSamplingSupported : Bool)
    (params : Option ITextureParameters) (usesFloatingPointTextures : Bool) :
    TexParams :=
  let filter := (params.bind (·.filter)).getD
    (if usesFloatingPointTextures && !linearSamplingSupported
      then .nearest else .linear)
  let warned := usesFloatingPointTextures && !linearSamplingSupported &&
    params.bind (·.filter) == some .linear
  let textureWrap := (params.bind (·.wrap)).getD .mirroredRepeat
  { minFilter := filter, magFilter := filter
    wrapS := textureWrap, wrapT := textureWrap, warned := warned }

/-- C7: the effective filter is the caller's explicit filter when given,
otherwise linear — except that the default downgrades to nearest exactly
when the bound image uses the uncapped (floating-point) numeric range and
the device lacks linear-sampling support on such textures; the effective
wrap is the caller's explicit wrap when given, otherwise mirrored-repeat;
and the filter is applied to the MIN and MAG filter alike, the wrap to the
horizontal and vertical axis alike. -/
theorem setActiveTextureParams_spec (sup fp : Bool)
    (params : Option ITextureParameters) :
    ((setActiveTextureParams sup params fp).magFilter =
      (setActiveTextureParams sup params fp).minFilter) ∧
    ((setActiveTextureParams sup params fp).wrapT =
      (setActiveTextureParams sup params fp).wrapS) ∧
    (∀ f, params.bind (·.filter) = some f →
      (setActiveTextureParams sup params fp).minFilter = f) ∧
    (params.bind (·.filter) = none →
      (setActiveTextureParams sup params fp).minFilter =
        (if fp && !sup then TexFilter.nearest else TexFilter.linear)) ∧
    (∀ w, params.bind (·.wrap) = some w →
      (setActiveTextureParams sup params fp).wrapS = w) ∧
    (params.bind (·.wrap) = none →
      (setActiveTextureParams sup params fp).wrapS = Wrap.mirroredRepeat) := by
  refine ⟨rfl, rfl, fun f h => ?_, fun h => ?_, fun w h => ?_, fun h => ?_⟩ <;>
    simp [setActiveTextureParams, h]

/-- Witness for C7: with a floating-point image on a device without
linear-sampling support, the default filter resolves to nearest; an
explicit linear filter is honored; and with no params at all the wrap
resolves to mirrored-repeat. -/
theorem setActiveTextureParams_spec_witness :
    (setActiveTextureParams false none true).minFilter = TexFilter.nearest ∧
    (setActiveTextureParams false (some ⟨some .linear, none⟩) true).minFilter =
      TexFilter.linear ∧
    (setActiveTextureParams true none false).wrapS = Wrap.mirroredRepeat := by
  obtain ⟨-, -, -, h4, -, -⟩ := setActiveTextureParams_spec false true none
  obtain ⟨-, -, g3, -, -, -⟩ :=
    setActiveTextureParams_spec false true (some ⟨some .linear, none⟩)
  obtain ⟨-, -, -, -, -, k6⟩ := setActiveTextureParams_spec true false none
  exact ⟨by simpa using h4 rfl, g3 .linear rfl, k6 rfl⟩

/-- One RGBA pixel as a one-pixel `readPixels(..., UNSIGNED_BYTE)` call
returns it: four byte channels written into a `Uint8Array(4)`. -/
structure Pixel where
  r : Fin 256
  g : Fin 256
  b : Fin 256
  a : Fin 256
  deriving DecidableEq, Repr

/-- The context's visible surface: the canvas dimensions and the device
framebuffer contents in device space (origin bottom-left, Y up). -/
structure CanvasState where
  width : ℕ
  height : ℕ
  pixels : ℤ → ℤ → Pixel

/-- `Context.getColorAt(x, y)`: a one-pixel `readPixels` at device-space
`(x, this.canvas.height - y - 1)`, returning `{r, g, b, a}` from the four
bytes read. -/
def Context.getColorAt (ctx : CanvasState) (x y : ℤ) : Pixel :=
  ctx.pixels x ((ctx.height : ℤ) - y - 1)

/-- C9: for in-bounds canvas coordinates (origin top-left, Y down),
`getColorAt(x, y)` reads exactly the device-space pixel
`(x, height - y - 1)` (origin bottom-left) — a coordinate itself in-bounds
— and returns its four channels, each in the range [0, 255]. -/
theorem getColorAt_spec (ctx : CanvasState) (x y : ℤ)
    (hx : 0 ≤ x ∧ x < (ctx.width : ℤ)) (hy : 0 ≤ y ∧ y < (ctx.height : ℤ)) :
    Context.getColorAt ctx x y = ctx.pixels x ((ctx.height : ℤ) - y - 1) ∧
    0 ≤ (ctx.height : ℤ) - y - 1 ∧
    (ctx.height : ℤ) - y - 1 < (ctx.height : ℤ) ∧
    (Context.getColorAt ctx x y).r.val ≤ 255 ∧
    (Context.getColorAt ctx x y).g.val ≤ 255 ∧
    (Context.getColorAt ctx x y).b.val ≤ 255 ∧
    (Context.getColorAt ctx x y).a.val ≤ 255 := by
  refine ⟨rfl, by omega, by omega, ?_, ?_, ?_, ?_⟩
  · have := (Context.getColorAt ctx x y).r.isLt
    omega
  · have := (Context.getColorAt ctx x y).g.isLt
    omega
  · have := (Context.getColorAt ctx x y).b.isLt
    omega
  · have := (Context.getColorAt ctx x y).a.isLt
    omega

/-- A concrete 10 by 10 surface for the C9 witness. -/
def testCanvas : CanvasState :=
  { width := 10, height := 10
    pixels := fun x y => if x = 0 ∧ y = 0 then ⟨255, 128, 64, 32⟩ else ⟨0, 0, 0, 0⟩ }

/-- Witness for C9: on the concrete 10 by 10 surface, reading canvas
coordinate (0, 9) — bottom-left corner, canvas space — returns the
device-space pixel at (0, 0), with its red channel in range. -/
theorem getColorAt_spec_witness :
    Context.getColorAt testCanvas 0 9 =
      testCanvas.pixels 0 ((testCanvas.height : ℤ) - 9 - 1) ∧
    0 ≤ (testCanvas.height : ℤ) - 9 - 1 ∧
    (Context.getColorAt testCanvas 0 9).r.val ≤ 255 := by
  obtain ⟨h1, h2, -, h4, -, -, -⟩ :=
    getColorAt_spec testCanvas 0 9
      (by constructor <;> norm_num [testCanvas])
      (by constructor <;> norm_num [testCanvas])
  exact ⟨h1, h2, h4⟩

/-- The WebGL device state the Framebuffer code touches: a counter handing
out fresh resource ids, the currently bound framebuffer object, the ids
passed to `deleteTexture` / `deleteFramebuffer`, and the `texImage2D`
allocation log (texture id, width, height) — an entry means the texture's
storage was (re)allocated blank at that size. -/
structure GLState where
  nextId : ℕ
  boundFramebuffer : Option ℕ
  deletedTextures : List ℕ
  deletedFramebuffers : List ℕ
  texImages : List (ℕ × ℤ × ℤ)
  deriving DecidableEq, Repr

/-- `gl.createTexture()` / `gl.createFramebuffer()`: hands out a fresh
resource id. -/
def GLState.create (gl : GLState) : ℕ × GLState :=
  (gl.nextId, { gl with nextId := gl.nextId + 1 })

/-- The drawable surface (`context.canvas`) dimensions. -/
structure Surface where
  width : ℕ
  height : ℕ
  deriving DecidableEq, Repr

/-- The `Framebuffer` fields: the framebuffer object, the backing texture
ids, the width/height recorded at the last initialization, the configured
texture count, the scale factor (`scaledownFactor`, a JS number, modelled
as a rational) and the floating-point flag. -/
structure Framebuffer where
  fbo : ℕ
  textures : List ℕ
  width : ℤ
  height : ℤ
  numTextures : ℕ
  scale : ℚ
  usesFloatingPointTextures : Bool
  deriving DecidableEq, Repr

/-- `Framebuffer.destroy`: `deleteTexture` on every backing texture, then
`deleteFramebuffer` on the framebuffer object. -/
def Framebuffer.destroy (fb : Framebuffer) (gl : GLState) : GLState :=
  { gl with
    deletedTextures := gl.deletedTextures ++ fb.textures
    deletedFramebuffers := gl.deletedFramebuffers ++ [fb.fbo] }

/-- The body of `init`'s `range(this.numTextures).map(i => ...)`: create a
texture, bind it, allocate blank storage at the framebuffer's size with
`texImage2D`, and attach it to `getColorAttachmentNumber(gl, i)` — the
bounds-checked device attachment constant.  (The `drawBuffers` call after
the loop resolves the same constants again and adds nothing to this
state.) -/
def initTextures (w h : ℤ) : List ℕ → GLState → Except FFError (List ℕ × GLState)
  | [], gl => .ok ([], gl)
  | i :: rest, gl =>
      let (tex, gl1) := gl.create
      let gl2 := { gl1 with texImages := gl1.texImages ++ [(tex, w, h)] }
      match getColorAttachmentNumber (i : ℤ) with
      | .error e => .error e
      | .ok _ =>
          match initTextures w h rest gl2 with
          | .error e => .error e
          | .ok (txs, gl3) => .ok (tex :: txs, gl3)

/-- `Framebuffer.init` on an already-initialized Framebuffer (`this.fbo`
set, as is the case whenever `bind` runs): destroys the current resources,
creates and binds a fresh framebuffer object, recomputes width and height
as `Math.floor(canvas dimension * scale)`, and allocates the backing
textures at that size. -/
def Framebuffer.init (surface : Surface) (fb : Framebuffer) (gl0 : GLState) :
    Except FFError (Framebuffer × GLState) :=
  let gl := fb.destroy gl0
  let (fboId, gl1) := gl.create
  let gl2 := { gl1 with boundFramebuffer := some fboId }
  let w : ℤ := ⌊(surface.width : ℚ) * fb.scale⌋
  let h : ℤ := ⌊(surface.height : ℚ) * fb.scale⌋
  match initTextures w h (List.range fb.numTextures) gl2 with
  | .error e => .error e
  | .ok (txs, gl3) =>
      .ok ({ fb with fbo := fboId, textures := txs, width := w, height := h },
        gl3)

/-- `Framebuffer.bind`: re-initializes exactly when the recorded dimensions
differ from `floor(canvas dimension * scale)`; otherwise only rebinds the
existing framebuffer object. -/
def Framebuffer.bind (surface : Surface) (fb : Framebuffer) (gl : GLState) :
    Except FFError (Framebuffer × GLState) :=
  if fb.width ≠ ⌊(surface.width : ℚ) * fb.scale⌋ ∨
      fb.height ≠ ⌊(surface.height : ℚ) * fb.scale⌋ then
    fb.init surface gl
  else
    .ok (fb, { gl with boundFramebuffer := some fb.fbo })

theorem initTextures_eq (w h : ℤ) :
    ∀ (l : List ℕ) (gl : GLState), (∀ i ∈ l, i ≤ 15) →
      initTextures w h l gl =
        .ok (List.range' gl.nextId l.length,
          { gl with
            nextId := gl.nextId + l.length
            texImages := gl.texImages ++
              (List.range' gl.nextId l.length).map (fun t => (t, w, h)) }) := by
  intro l
  induction l with
  | nil => intro gl _; simp [initTextures]
  | cons i rest ih =>
      intro gl hle
      have hAtt : getColorAttachmentNumber ((i : ℕ) : ℤ) = .ok (36064 + i) := by
        rw [getColorAttachmentNumber_eq,
          if_pos ⟨Int.natCast_nonneg i,
            by exact_mod_cast hle i (List.mem_cons_self i rest)⟩]
        simp
      have hrest : ∀ j ∈ rest, j ≤ 15 :=
        fun j hj => hle j (List.mem_cons_of_mem i hj)
      simp only [initTextures, GLState.create, hAtt, ih _ hrest]
      simp [List.range'_succ]
      omega

theorem Framebuffer.init_eq (surface : Surface) (fb : Framebuffer)
    (gl : GLState) (hn : fb.numTextures ≤ 16) :
    fb.init surface gl =
      .ok ({ fb with
              fbo := gl.nextId
              textures := List.range' (gl.nextId + 1) fb.numTextures
              width := ⌊(surface.width : ℚ) * fb.scale⌋
              height := ⌊(surface.height : ℚ) * fb.scale⌋ },
        { nextId := gl.nextId + 1 + fb.numTextures
          boundFramebuffer := some gl.nextId
          deletedTextures := gl.deletedTextures ++ fb.textures
          deletedFramebuffers := gl.deletedFramebuffers ++ [fb.fbo]
          texImages := gl.texImages ++
            (List.range' (gl.nextId + 1) fb.numTextures).map
              (fun t => (t, ⌊(surface.width : ℚ) * fb.scale⌋,
                ⌊(surface.height : ℚ) * fb.scale⌋)) }) := by
  have hmem : ∀ i ∈ List.range fb.numTextures, i ≤ 15 := by
    intro i hi
    have := List.mem_range.mp hi
    omega
  simp only [Framebuffer.init, Framebuffer.destroy, GLState.create,
    initTextures_eq _ _ _ _ hmem]
  simp [List.length_range]

/-- C6: `Framebuffer.bind` destroys and recreates all backing images — at
size (floor(surfaceWidth * scale), floor(surfaceHeight * scale)) — exactly
when those dimensions differ from the ones recorded at the last
initialization; when they are equal it only rebinds the existing
framebuffer object and touches nothing else in the device state, so texture
identities and contents survive; and after any successful bind, binding
again with an unchanged surface size only rebinds. -/
theorem framebuffer_bind_lazy_resize (surface : Surface) (fb : Framebuffer)
    (gl : GLState) (hn : fb.numTextures ≤ 16) :
    (fb.width = ⌊(surface.width : ℚ) * fb.scale⌋ ∧
        fb.height = ⌊(surface.height : ℚ) * fb.scale⌋ →
      fb.bind surface gl =
        .ok (fb, { gl with boundFramebuffer := some fb.fbo })) ∧
    (fb.width ≠ ⌊(surface.width : ℚ) * fb.scale⌋ ∨
        fb.height ≠ ⌊(surface.height : ℚ) * fb.scale⌋ →
      ∃ fb2 gl2, fb.bind surface gl = .ok (fb2, gl2) ∧
        fb2.width = ⌊(surface.width : ℚ) * fb.scale⌋ ∧
        fb2.height = ⌊(surface.height : ℚ) * fb.scale⌋ ∧
        fb2.textures.length = fb.numTextures ∧
        gl2.deletedTextures = gl.deletedTextures ++ fb.textures ∧
        fb.fbo ∈ gl2.deletedFramebuffers ∧
        (∀ t ∈ fb2.textures, gl.nextId ≤ t) ∧
        (∀ t ∈ fb2.textures, (t, fb2.width, fb2.height) ∈ gl2.texImages)) ∧
    (∀ fb2 gl2, fb.bind surface gl = .ok (fb2, gl2) →
      fb2.bind surface gl2 =
        .ok (fb2, { gl2 with boundFramebuffer := some fb2.fbo })) := by
  refine ⟨?_, ?_, ?_⟩
  · intro ⟨h1, h2⟩
    unfold Framebuffer.bind
    rw [if_neg (by push_neg; exact ⟨h1, h2⟩)]
  · intro hne
    unfold Framebuffer.bind
    rw [if_pos hne, Framebuffer.init_eq surface fb gl hn]
    refine ⟨_, _, rfl, rfl, rfl, ?_, rfl, ?_, ?_, ?_⟩
    · simp
    · simp
    · intro t ht
      simp at ht
      omega
    · intro t ht
      simp only []
      apply List.mem_append_right
      exact List.mem_map_of_mem _ ht
  · intro fb2 gl2 hbind
    unfold Framebuffer.bind at hbind
    by_cases hcond : fb.width ≠ ⌊(surface.width : ℚ) * fb.scale⌋ ∨
        fb.height ≠ ⌊(surface.height : ℚ) * fb.scale⌋
    · rw [if_pos hcond, Framebuffer.init_eq surface fb gl hn] at hbind
      simp at hbind
      obtain ⟨hfb2, hgl2⟩ := hbind
      unfold Framebuffer.bind
      rw [if_neg (by rw [← hfb2]; push_neg; simp)]
    · rw [if_neg hcond] at hbind
      simp at hbind
      obtain ⟨hfb2, hgl2⟩ := hbind
      unfold Framebuffer.bind
      rw [if_neg (by rw [← hfb2]; exact hcond)]

/-- Witness for C6: a Framebuffer of recorded size 10 by 10 with scale 1 on
a 10 by 10 surface — the recomputed dimensions match, so `bind` only
rebinds the framebuffer object, leaving textures, contents and deletion
logs untouched; and binding again does the same. -/
theorem framebuffer_bind_lazy_resize_witness :
    Framebuffer.bind ⟨10, 10⟩ ⟨0, [1], 10, 10, 1, 1, false⟩
        ⟨2, none, [], [], [(1, 10, 10)]⟩ =
      .ok (⟨0, [1], 10, 10, 1, 1, false⟩, ⟨2, some 0, [], [], [(1, 10, 10)]⟩) ∧
    Framebuffer.bind ⟨10, 10⟩ ⟨0, [1], 10, 10, 1, 1, false⟩
        ⟨2, some 0, [], [], [(1, 10, 10)]⟩ =
      .ok (⟨0, [1], 10, 10, 1, 1, false⟩, ⟨2, some 0, [], [], [(1, 10, 10)]⟩) := by
  obtain ⟨h1, -, h3⟩ := framebuffer_bind_lazy_resize ⟨10, 10⟩
    ⟨0, [1], 10, 10, 1, 1, false⟩ ⟨2, none, [], [], [(1, 10, 10)]⟩ (by decide)
  have hfloor : (10 : ℤ) = ⌊((10 : ℕ) : ℚ) * (1 : ℚ)⌋ := by norm_num
  have hb := h1 ⟨hfloor, hfloor⟩
  exact ⟨hb, h3 _ _ hb⟩
